import Mathlib

/-!
Verification development for the ChurnFlow capture pipeline.

Shallow embedding of the capture-and-routing pipeline:
src/core/InferenceEngine.ts, src/core/CaptureEngine.ts and
src/core/TrackerManager.ts (multi-item revision, the revision the claim
citations point at), together with the shared types of src/types/churn.ts.

Modelling conventions:
* JavaScript numbers carrying confidences are modelled as rationals.
  Concrete decimal constants of the source (0.1, 0.5) are written as
  explicitly reduced rationals so that every definition evaluates inside
  the kernel.
* JavaScript "x || d" on possibly-absent fields is modelled by explicit
  functions on Option that reproduce the falsiness of undefined, null,
  the empty string and the number 0.
* The untrusted JSON response of the inference service is a structure of
  Option-typed fields (absent field = none).
* File-system effects are modelled by an environment oracle: writeOk
  says whether the staged write for a tag goes through; crossrefOk says
  whether the registry file is readable; infOutcome is the outcome of
  the external inference stage (Except.error models a thrown exception).
* Document contents are lists of lines; the splice-based placement of
  TrackerManager is embedded verbatim at that level.
-/

namespace Churn

/-- Rational constant for the source literal 0.1. -/
def qTenth : ℚ := ⟨1, 10, by decide, by decide⟩

/-- Rational constant for the source literal 0.5. -/
def qHalf : ℚ := ⟨1, 2, by decide, by decide⟩

theorem qTenth_eq_div : qTenth = 1 / 10 := by
  unfold qTenth
  rw [Rat.mk'_eq_divInt, Rat.divInt_eq_div]
  norm_num

theorem qHalf_eq_div : qHalf = 1 / 2 := by
  unfold qHalf
  rw [Rat.mk'_eq_divInt, Rat.divInt_eq_div]
  norm_num

/-- ItemType from src/types/churn.ts (multi-item revision, with activity). -/
inductive ItemType where
  | action
  | review
  | reference
  | someday
  | activity
  deriving DecidableEq, Repr

/-- Priority from src/types/churn.ts. -/
inductive Priority where
  | critical
  | high
  | medium
  | low
  deriving DecidableEq, Repr

/-- CaptureInput from src/types/churn.ts (timestamp is threaded through the
environment as a rendered date string where the source formats dates). -/
structure CaptureInput where
  text : String
  inputType : String
  forceContext : Option String := none
  deriving DecidableEq, Repr

/-- GeneratedItem from src/types/churn.ts. -/
structure GeneratedItem where
  tracker : String
  itemType : ItemType
  priority : Priority
  content : String
  reasoning : String
  deriving DecidableEq, Repr

/-- TaskCompletion from src/types/churn.ts. -/
structure TaskCompletion where
  tracker : String
  description : String
  reasoning : String
  deriving DecidableEq, Repr

/-- InferenceResult from src/types/churn.ts (multi-item revision). -/
structure InferenceResult where
  primaryTracker : String
  confidence : ℚ
  overallReasoning : String
  generatedItems : List GeneratedItem
  taskCompletions : List TaskCompletion
  requiresReview : Bool
  deriving DecidableEq, Repr

/-- ChurnConfig from src/types/churn.ts, restricted to the field the
embedded pipeline logic reads (the path, provider and key fields only
steer I/O and the external call, both of which sit behind the oracles). -/
structure ChurnConfig where
  confidenceThreshold : ℚ
  deriving DecidableEq, Repr

/-- One element of the untrusted generatedItems array of the raw service
response (every field may be absent). -/
structure RawGeneratedItem where
  tracker : Option String := none
  itemType : Option String := none
  priority : Option String := none
  content : Option String := none
  reasoning : Option String := none
  deriving DecidableEq, Repr

/-- One element of the untrusted taskCompletions array of the raw service
response. -/
structure RawTaskCompletion where
  tracker : Option String := none
  description : Option String := none
  reasoning : Option String := none
  deriving DecidableEq, Repr

/-- The untrusted JSON-shaped response of the inference service as consumed
by InferenceEngine.parseInferenceResult (every field may be absent). -/
structure RawInferenceResponse where
  primaryTracker : Option String := none
  confidence : Option ℚ := none
  overallReasoning : Option String := none
  generatedItems : Option (List RawGeneratedItem) := none
  taskCompletions : Option (List RawTaskCompletion) := none
  requiresReview : Option Bool := none
  deriving DecidableEq, Repr

/-- JavaScript "s || d" for a possibly absent string field: undefined, null
and the empty string are falsy and give the default. -/
def jsOrString (o : Option String) (d : String) : String :=
  match o with
  | none => d
  | some s => if s = "" then d else s

/-- JavaScript "x || d" for a possibly absent numeric field: undefined,
null and 0 are falsy and give the default. -/
def jsOrRat (o : Option ℚ) (d : ℚ) : ℚ :=
  match o with
  | none => d
  | some q => if q = 0 then d else q

/-- The validTypes list of InferenceEngine.validateItemType. -/
def validTypes : List String :=
  ["action", "review", "reference", "someday", "activity"]

/-- The validPriorities list of InferenceEngine.validatePriority. -/
def validPriorities : List String :=
  ["critical", "high", "medium", "low"]

/-- Transport of a raw item-type string into the ItemType enumeration
(used only on members of validTypes, where it is the identity embedding). -/
def itemTypeOfString (s : String) : ItemType :=
  if s = "action" then .action
  else if s = "review" then .review
  else if s = "reference" then .reference
  else if s = "someday" then .someday
  else .activity

/-- Transport of a raw priority string into the Priority enumeration. -/
def priorityOfString (s : String) : Priority :=
  if s = "critical" then .critical
  else if s = "high" then .high
  else if s = "medium" then .medium
  else .low

/-- InferenceEngine.validateItemType: keep a member of validTypes,
coerce anything else (absent values included) to review. -/
def validateItemType (itemType : Option String) : ItemType :=
  match itemType with
  | some s => if s ∈ validTypes then itemTypeOfString s else .review
  | none => .review

/-- InferenceEngine.validatePriority: keep a member of validPriorities,
coerce anything else (absent values included) to medium. -/
def validatePriority (priority : Option String) : Priority :=
  match priority with
  | some s => if s ∈ validPriorities then priorityOfString s else .medium
  | none => .medium

/-- InferenceEngine.fallbackFormat: the minimal timestamped template
wrapping the raw text; today is the date part of the current timestamp. -/
def fallbackFormat (today : String) (text : String) : String :=
  "- [ ] #task " ++ text ++ (" 📅 " ++ today)

/-- The confidence normalization line of
InferenceEngine.parseInferenceResult:
Math.max(0, Math.min(1, aiResult.confidence || 0.5)). -/
def normalizedConfidence (aiResult : RawInferenceResponse) : ℚ :=
  max 0 (min 1 (jsOrRat aiResult.confidence qHalf))

/-- The per-item coercion step of the generatedItems loop of
InferenceEngine.parseInferenceResult. -/
def parseRawItem (today : String) (input : CaptureInput)
    (item : RawGeneratedItem) : GeneratedItem :=
  { tracker := jsOrString item.tracker "review"
    itemType := validateItemType item.itemType
    priority := validatePriority item.priority
    content := jsOrString item.content (fallbackFormat today input.text)
    reasoning := jsOrString item.reasoning "Generated item" }

/-- The per-completion coercion step of the taskCompletions loop of
InferenceEngine.parseInferenceResult. -/
def parseRawCompletion (completion : RawTaskCompletion) : TaskCompletion :=
  { tracker := jsOrString completion.tracker "review"
    description := jsOrString completion.description "Task completion detected"
    reasoning := jsOrString completion.reasoning "Completion inference" }

/-- InferenceEngine.parseInferenceResult: validate and coerce the untrusted
service response field by field, substitute a synthetic review item for an
absent or empty item list, and force requiresReview below the configured
confidence threshold. -/
def parseInferenceResult (config : ChurnConfig) (today : String)
    (aiResult : RawInferenceResponse) (input : CaptureInput) : InferenceResult :=
  let parsedItems : List GeneratedItem :=
    match aiResult.generatedItems with
    | some items => items.map (parseRawItem today input)
    | none => []
  let generatedItems : List GeneratedItem :=
    if parsedItems.isEmpty then
      [{ tracker := jsOrString aiResult.primaryTracker "review"
         itemType := .review
         priority := .medium
         content := fallbackFormat today input.text
         reasoning := "Fallback item creation" }]
    else parsedItems
  let taskCompletions : List TaskCompletion :=
    match aiResult.taskCompletions with
    | some completions => completions.map parseRawCompletion
    | none => []
  { primaryTracker := jsOrString aiResult.primaryTracker "review"
    confidence := normalizedConfidence aiResult
    overallReasoning := jsOrString aiResult.overallReasoning "AI inference result"
    generatedItems := generatedItems
    taskCompletions := taskCompletions
    requiresReview :=
      (aiResult.requiresReview.getD false)
        || decide (normalizedConfidence aiResult < config.confidenceThreshold) }

/-- InferenceEngine.fallbackInference: the synthetic result returned when
the external call fails for any reason. -/
def fallbackInference (today : String) (input : CaptureInput) : InferenceResult :=
  { primaryTracker := "review"
    confidence := qTenth
    overallReasoning := "AI inference failed, routing to review"
    generatedItems :=
      [{ tracker := "review"
         itemType := .review
         priority := .medium
         content := fallbackFormat today input.text
         reasoning := "Fallback due to AI failure" }]
    taskCompletions := []
    requiresReview := true }

/-- InferenceEngine.inferCapture: the external call is an oracle; a
successfully deserialized response (some raw) is validated by
parseInferenceResult, any failure (network error, thrown exception,
malformed payload: none) takes the fallback path. -/
def inferCapture (config : ChurnConfig) (today : String)
    (service : Option RawInferenceResponse) (input : CaptureInput) : InferenceResult :=
  match service with
  | some aiResult => parseInferenceResult config today aiResult input
  | none => fallbackInference today input

/-- TrackerFrontmatter from src/types/churn.ts, restricted to the tag
field, the only frontmatter field the capture pipeline reads. -/
structure TrackerFrontmatter where
  tag : String
  deriving DecidableEq, Repr

/-- A loaded tracker as held by TrackerManager (content and filePath live
behind the document-level functions and the write oracle respectively). -/
structure Tracker where
  frontmatter : TrackerFrontmatter
  deriving DecidableEq, Repr

/-- CaptureItemResult from src/types/churn.ts. -/
structure CaptureItemResult where
  success : Bool
  tracker : String
  itemType : ItemType
  formattedEntry : String
  error : Option String := none
  deriving DecidableEq, Repr

/-- CaptureResult from src/types/churn.ts (multi-item revision). -/
structure CaptureResult where
  success : Bool
  primaryTracker : String
  confidence : ℚ
  itemResults : List CaptureItemResult
  completedTasks : List TaskCompletion
  requiresReview : Bool
  error : Option String := none
  deriving DecidableEq, Repr

/-- The in-memory state of a CaptureEngine: the initialized flag and the
TrackerManager map of loaded trackers, as an association list keyed by the
crossref tag, in registry order (Map insertion order). -/
structure EngineState where
  initialized : Bool
  trackers : List (String × Tracker)
  deriving DecidableEq, Repr

/-- Oracle environment for one capture invocation. crossrefOk: the registry
file is readable (loadCrossref does not throw). infOutcome: outcome of the
inference stage (error e models an exception thrown past inferCapture,
handled defensively by capture). writeOk: whether the read-splice-write
cycle of an append against the file behind a tag goes through. now: the
rendered current timestamp; today: its date part. -/
structure CaptureEnv where
  crossrefOk : Bool
  infOutcome : Except String InferenceResult
  writeOk : String → Bool
  now : String

/-- TrackerManager.getTracker: map lookup by tag. -/
def getTracker (st : EngineState) (tag : String) : Option Tracker :=
  (st.trackers.find? (fun p => p.1 == tag)).map (fun p => p.2)

/-- TrackerManager.getTrackersByContext with no filter: all loaded
trackers in map insertion order. -/
def getTrackersByContext (st : EngineState) : List Tracker :=
  st.trackers.map (fun p => p.2)

/-- Success value of TrackerManager.appendToTracker: false when the tag is
not loaded, otherwise the outcome of the full read-splice-write cycle
(oracle). The document-level splice it performs is appendToTrackerLines. -/
def appendToTracker (env : CaptureEnv) (st : EngineState)
    (tag : String) (formattedEntry : String) : Bool :=
  match getTracker st tag with
  | some _ => env.writeOk tag
  | none => false

/-- Success value of TrackerManager.appendActivityToTracker: same
found-and-written semantics; its document-level splice is
appendActivityToTrackerLines. -/
def appendActivityToTracker (env : CaptureEnv) (st : EngineState)
    (tag : String) (formattedEntry : String) : Bool :=
  match getTracker st tag with
  | some _ => env.writeOk tag
  | none => false

/-- Decimal-free rendering of a rational as num/den for entry templates. -/
def ratStr (q : ℚ) : String :=
  toString q.num ++ "/" ++ toString q.den

/-- Modelled from the spec: FormattingUtils.formatEntry. The file
src/utils/FormattingUtils.ts is absent from the sources (only its callers
and the templates of churn.ts are present); per the spec and the review
template of FORMATTING_CONSTANTS, the rendered entry embeds the item-type
marker, the description verbatim, and the confidence when supplied. -/
def formatEntry (itemType : String) (description : String)
    (confidence : Option ℚ) : String :=
  ("- [ ] #" ++ itemType ++ " ") ++ description ++
    (match confidence with
     | some c => " (confidence: " ++ ratStr c ++ ")"
     | none => "")

/-- CaptureEngine.formatReviewEntry (multi-item revision). Note the source
reads inference.inferredTracker, a field that does not exist on the
multi-item InferenceResult, so the template-literal renders the string
"undefined" in its place. -/
def formatReviewEntry (input : CaptureInput)
    (inference : Option InferenceResult) : String :=
  let confidence := jsOrRat (inference.map (fun i => i.confidence)) qTenth
  match inference with
  | some _ =>
      formatEntry "review"
        (("REVIEW NEEDED: " ++ input.text) ++ " (AI suggested: undefined)")
        (some confidence)
  | none =>
      formatEntry "review" ("REVIEW NEEDED: " ++ input.text) (some confidence)

/-- CaptureEngine.appendToReviewTracker: pick the first tracker that is
loaded among the tags review, inbox, churn-system, and attempt the single
append against it; false when none of the three is loaded. -/
def appendToReviewTracker (env : CaptureEnv) (st : EngineState)
    (entry : String) : Bool :=
  match getTracker st "review" with
  | some tr => appendToTracker env st tr.frontmatter.tag entry
  | none =>
    match getTracker st "inbox" with
    | some tr => appendToTracker env st tr.frontmatter.tag entry
    | none =>
      match getTracker st "churn-system" with
      | some tr => appendToTracker env st tr.frontmatter.tag entry
      | none => false

/-- CaptureEngine.routeToReview (multi-item revision). -/
def routeToReview (env : CaptureEnv) (st : EngineState)
    (input : CaptureInput) (inference : Option InferenceResult) : CaptureResult :=
  let reviewEntry := formatReviewEntry input inference
  let ok := appendToReviewTracker env st reviewEntry
  { success := ok
    primaryTracker := "review"
    confidence := jsOrRat (inference.map (fun i => i.confidence)) qTenth
    itemResults :=
      [{ success := ok
         tracker := "review"
         itemType := .review
         formattedEntry := reviewEntry
         error := if ok then none else some "Failed to save to review tracker" }]
    completedTasks := []
    requiresReview := true
    error := none }

/-- The emergency entry rendered by CaptureEngine.emergencyCapture. -/
def emergencyEntry (env : CaptureEnv) (input : CaptureInput)
    (errMessage : String) : String :=
  ("- [ ] EMERGENCY CAPTURE [" ++ env.now ++ "]: ") ++ input.text ++
    (" (Error: " ++ errMessage ++ ")")

/-- CaptureEngine.emergencyCapture: iterate every loaded tracker in map
order attempting a plain append; first success wins; when none succeeds,
return the terminal failure result. -/
def emergencyCapture (env : CaptureEnv) (st : EngineState)
    (input : CaptureInput) (errMessage : String) : CaptureResult :=
  let entry := emergencyEntry env input errMessage
  match (getTrackersByContext st).find?
      (fun tracker => appendToTracker env st tracker.frontmatter.tag entry) with
  | some tracker =>
      { success := true
        primaryTracker := tracker.frontmatter.tag
        confidence := qTenth
        itemResults :=
          [{ success := true
             tracker := tracker.frontmatter.tag
             itemType := .action
             formattedEntry := entry
             error := none }]
        completedTasks := []
        requiresReview := true
        error := none }
  | none =>
      { success := false
        primaryTracker := "none"
        confidence := 0
        itemResults :=
          [{ success := false
             tracker := "none"
             itemType := .action
             formattedEntry := entry
             error := some ("Complete capture failure: " ++ errMessage) }]
        completedTasks := []
        requiresReview := true
        error := some ("Complete capture failure: " ++ errMessage) }

/-- One iteration of the generated-items placement loop of
CaptureEngine.capture. -/
def placeItem (env : CaptureEnv) (st : EngineState)
    (item : GeneratedItem) : CaptureItemResult :=
  let ok :=
    if item.itemType = .activity then
      appendActivityToTracker env st item.tracker item.content
    else
      appendToTracker env st item.tracker item.content
  { success := ok
    tracker := item.tracker
    itemType := item.itemType
    formattedEntry := item.content
    error := if ok then none else some ("Failed to write to " ++ item.tracker) }

/-- The body of the try block of CaptureEngine.capture (multi-item
revision), together with its catch handler: inference outcome, review
gate, completion pass, placement pass, resolve; a thrown inference stage
goes to emergencyCapture. This function never fails. -/
def captureRun (env : CaptureEnv) (st : EngineState)
    (input : CaptureInput) : CaptureResult :=
  match env.infOutcome with
  | .error e => emergencyCapture env st input e
  | .ok inference =>
    if inference.requiresReview then
      routeToReview env st input (some inference)
    else
      let completedTasks := inference.taskCompletions
      let itemResults := inference.generatedItems.map (placeItem env st)
      { success := itemResults.any (fun r => r.success)
        primaryTracker := inference.primaryTracker
        confidence := inference.confidence
        itemResults := itemResults
        completedTasks := completedTasks
        requiresReview := false
        error := none }

/-- CaptureEngine.capture: the lazy-initialization guard sits outside the
try block, so a failing initialize (unreadable registry) propagates as an
exception; every other path returns a result. Loading outcomes are folded
into the tracker list the state would hold after initialize. -/
def capture (env : CaptureEnv) (st : EngineState)
    (input : CaptureInput) : Except String CaptureResult :=
  if st.initialized then
    .ok (captureRun env st input)
  else if env.crossrefOk then
    .ok (captureRun env { st with initialized := true } input)
  else
    .error "Cannot initialize without crossref data"

/-- JavaScript String.prototype.trim as used by TrackerManager: strip
whitespace from both ends. -/
def jsTrim (s : String) : String :=
  String.mk
    (((s.data.dropWhile Char.isWhitespace).reverse.dropWhile
        Char.isWhitespace).reverse)

/-- JavaScript String.prototype.startsWith as used by TrackerManager. -/
def jsStartsWith (s : String) (pre : String) : Bool :=
  pre.data.isPrefixOf s.data

/-- TrackerManager.findSectionIndex: index of the line whose trimmed text
equals the section header. -/
def findSectionIndex (lines : List String) (sectionHeader : String) : Option Nat :=
  lines.findIdx? (fun line => jsTrim line == sectionHeader)

/-- JavaScript Array.prototype.splice(idx, 0, ...toInsert): insert at idx,
clamped to the length. -/
def spliceInsert (lines : List String) (idx : Nat)
    (toInsert : List String) : List String :=
  lines.take idx ++ toInsert ++ lines.drop idx

/-- Document-level effect of TrackerManager.appendToTracker on the content
lines: splice the entry two lines below the Action Items header when that
section exists, otherwise push a blank line and the entry at the end. -/
def appendToTrackerLines (lines : List String) (formattedEntry : String) : List String :=
  match findSectionIndex lines "## Action Items" with
  | some actionSectionIndex => spliceInsert lines (actionSectionIndex + 2) [formattedEntry]
  | none => lines ++ ["", formattedEntry]

/-- Document-level effect of TrackerManager.appendActivityToTracker on the
content lines: splice the entry two lines below the Activity Log header
when that section exists; otherwise create the section immediately before
Action Items, or at the end of the document. -/
def appendActivityToTrackerLines (lines : List String)
    (formattedEntry : String) : List String :=
  match findSectionIndex lines "## Activity Log" with
  | some activitySectionIndex =>
      spliceInsert lines (activitySectionIndex + 2) [formattedEntry]
  | none =>
    match findSectionIndex lines "## Action Items" with
    | some actionSectionIndex =>
        spliceInsert lines actionSectionIndex
          ["## Activity Log", "", formattedEntry, ""]
    | none => lines ++ ["", "## Activity Log", "", formattedEntry]

/-- TrackerManager.findSection: the lines strictly between the header line
and the next line starting with a markdown section marker. -/
def findSection (lines : List String) (sectionHeader : String) : Option (List String) :=
  match findSectionIndex lines sectionHeader with
  | none => none
  | some startIndex =>
    let rest := lines.drop (startIndex + 1)
    match rest.findIdx? (fun line => jsStartsWith line "##") with
    | some k => some (rest.take k)
    | none => some rest

/-- The entry lines of the Activity Log section, filtered the way
TrackerManager.extractRecentActivity reads them. -/
def activityEntries (lines : List String) : List String :=
  match findSection lines "## Activity Log" with
  | some sectionLines =>
      sectionLines.filter (fun line => jsStartsWith (jsTrim line) "-")
  | none => []

/-- Lexicographic comparison of character lists (the order JavaScript
string comparison gives on ASCII timestamps). -/
def charListLt : List Char → List Char → Bool
  | [], [] => false
  | [], _ :: _ => true
  | _ :: _, [] => false
  | a :: as, b :: bs =>
    if a < b then true else if b < a then false else charListLt as bs

/-- The timestamp of an activity entry line of the form
"- [YYYY-MM-DD HH:mm] text": the sixteen characters after "- [". -/
def stampOf (line : String) : String :=
  String.mk (((jsTrim line).data.drop 3).take 16)

/-- Oldest-first chronological ordering of a list of activity entry lines,
compared on their timestamps. -/
def oldestFirst : List String → Bool
  | [] => true
  | [_] => true
  | a :: b :: rest =>
    if charListLt (stampOf b).data (stampOf a).data then false
    else oldestFirst (b :: rest)

/-- Rational constant for the threshold literal 0.7 used in scenarios. -/
def qSevenTenths : ℚ := ⟨7, 10, by decide, by decide⟩

/-- Every ItemType value lies in the five-element enumeration. -/
theorem itemType_mem_enum (t : ItemType) :
    t ∈ [ItemType.action, .review, .reference, .someday, .activity] := by
  cases t <;> simp

/-- Every Priority value lies in the four-element enumeration. -/
theorem priority_mem_enum (p : Priority) :
    p ∈ [Priority.critical, .high, .medium, .low] := by
  cases p <;> simp

/-- A string with a nonempty left part stays nonempty under append. -/
theorem append_ne_empty_left (s t : String) (h : s.data ≠ []) : s ++ t ≠ "" := by
  intro heq
  apply h
  have h2 := congrArg String.data heq
  rw [String.data_append] at h2
  exact (List.append_eq_nil.mp h2).1

/-- Claim C2: whenever the external inference call fails for any reason,
inferCapture returns the synthetic fallback result with confidence exactly
0.1, exactly one generated item of item-type review whose content contains
the original input text verbatim inside the timestamped template, an empty
task-completion list, and requiresReview = true. -/
theorem inferCapture_failure_gives_fallback (config : ChurnConfig)
    (today : String) (input : CaptureInput) :
    (inferCapture config today none input).confidence = 1 / 10 ∧
    (inferCapture config today none input).generatedItems =
      [{ tracker := "review"
         itemType := .review
         priority := .medium
         content := fallbackFormat today input.text
         reasoning := "Fallback due to AI failure" }] ∧
    (∃ pre post, fallbackFormat today input.text = pre ++ input.text ++ post) ∧
    (inferCapture config today none input).taskCompletions = [] ∧
    (inferCapture config today none input).requiresReview = true := by
  refine ⟨qTenth_eq_div, rfl, ⟨"- [ ] #task ", " 📅 " ++ today, rfl⟩, rfl, rfl⟩

/-- Claim C3: for every raw inference response, the parsed result has
confidence in [0,1], every generated item carries an item-type from the
five-element enumeration and a priority from the four-element enumeration,
and unrecognized item-type/priority strings are coerced to review/medium. -/
theorem parseInferenceResult_invariants (config : ChurnConfig)
    (today : String) (aiResult : RawInferenceResponse) (input : CaptureInput) :
    0 ≤ (parseInferenceResult config today aiResult input).confidence ∧
    (parseInferenceResult config today aiResult input).confidence ≤ 1 ∧
    (∀ item ∈ (parseInferenceResult config today aiResult input).generatedItems,
      item.itemType ∈ [ItemType.action, .review, .reference, .someday, .activity] ∧
      item.priority ∈ [Priority.critical, .high, .medium, .low]) ∧
    (∀ s : String, s ∉ validTypes → validateItemType (some s) = .review) ∧
    (∀ s : String, s ∉ validPriorities → validatePriority (some s) = .medium) := by
  refine ⟨le_max_left 0 _, max_le zero_le_one (min_le_left 1 _), ?_, ?_, ?_⟩
  · intro item _
    exact ⟨itemType_mem_enum item.itemType, priority_mem_enum item.priority⟩
  · intro s hs
    show (if s ∈ validTypes then itemTypeOfString s else .review) = ItemType.review
    exact if_neg hs
  · intro s hs
    show (if s ∈ validPriorities then priorityOfString s else .medium) = Priority.medium
    exact if_neg hs

/-- Witness for C3 at a concrete raw response. -/
theorem parseInferenceResult_invariants_witness :
    0 ≤ (parseInferenceResult ⟨qSevenTenths⟩ "2025-09-16" {} ⟨"hello", "text", none⟩).confidence :=
  (parseInferenceResult_invariants ⟨qSevenTenths⟩ "2025-09-16" {} ⟨"hello", "text", none⟩).1

/-- Claim C4: a raw response whose generatedItems list is absent or empty
parses to exactly one synthetic item of item-type review and priority
medium whose content is the timestamped fallback template around the
original input text. -/
theorem parseInferenceResult_empty_items_fallback (config : ChurnConfig)
    (today : String) (aiResult : RawInferenceResponse) (input : CaptureInput)
    (h : aiResult.generatedItems = none ∨ aiResult.generatedItems = some []) :
    (parseInferenceResult config today aiResult input).generatedItems =
      [{ tracker := jsOrString aiResult.primaryTracker "review"
         itemType := .review
         priority := .medium
         content := fallbackFormat today input.text
         reasoning := "Fallback item creation" }] ∧
    (∃ pre post, fallbackFormat today input.text = pre ++ input.text ++ post) := by
  refine ⟨?_, ⟨"- [ ] #task ", " 📅 " ++ today, rfl⟩⟩
  rcases h with h | h <;> simp [parseInferenceResult, h]

/-- Witness for C4 at a concrete raw response with an absent item list. -/
theorem parseInferenceResult_empty_items_fallback_witness :
    (parseInferenceResult ⟨qSevenTenths⟩ "2025-09-16" {} ⟨"hello", "text", none⟩).generatedItems =
      [{ tracker := jsOrString (none : Option String) "review"
         itemType := .review
         priority := .medium
         content := fallbackFormat "2025-09-16" "hello"
         reasoning := "Fallback item creation" }] :=
  (parseInferenceResult_empty_items_fallback ⟨qSevenTenths⟩ "2025-09-16" {}
    ⟨"hello", "text", none⟩ (Or.inl rfl)).1

/-- Claim C5: the parsed requiresReview flag is true whenever the
normalized confidence is strictly below the configured threshold, whatever
the service reported in its own requiresReview field. -/
theorem parseInferenceResult_threshold_forces_review (config : ChurnConfig)
    (today : String) (aiResult : RawInferenceResponse) (input : CaptureInput)
    (h : normalizedConfidence aiResult < config.confidenceThreshold) :
    (parseInferenceResult config today aiResult input).requiresReview = true := by
  show (aiResult.requiresReview.getD false
      || decide (normalizedConfidence aiResult < config.confidenceThreshold)) = true
  rw [decide_eq_true h, Bool.or_true]

/-- Witness for C5: the scenario of the claim, service confidence 0.5 and
requiresReview false against threshold 0.7, forces requiresReview true. -/
theorem parseInferenceResult_threshold_forces_review_witness :
    (parseInferenceResult ⟨qSevenTenths⟩ "2025-09-16"
      { confidence := some qHalf, requiresReview := some false }
      ⟨"Medium confidence input", "text", none⟩).requiresReview = true :=
  parseInferenceResult_threshold_forces_review ⟨qSevenTenths⟩ "2025-09-16"
    { confidence := some qHalf, requiresReview := some false }
    ⟨"Medium confidence input", "text", none⟩ (by decide)

/-- Claim C10: a raw response whose confidence is missing, null or exactly
0 is normalized to 0.5, so the below-threshold review gate does not fire
unless the configured threshold exceeds 0.5. -/
theorem parseInferenceResult_zero_confidence_default (config : ChurnConfig)
    (today : String) (aiResult : RawInferenceResponse) (input : CaptureInput)
    (h : aiResult.confidence = none ∨ aiResult.confidence = some 0) :
    (parseInferenceResult config today aiResult input).confidence = 1 / 2 ∧
    (normalizedConfidence aiResult < config.confidenceThreshold ↔
      1 / 2 < config.confidenceThreshold) ∧
    (config.confidenceThreshold ≤ 1 / 2 →
      (parseInferenceResult config today aiResult input).requiresReview =
        aiResult.requiresReview.getD false) := by
  have hjs : jsOrRat aiResult.confidence qHalf = qHalf := by
    rcases h with h | h
    · rw [h]
      rfl
    · rw [h]
      show (if (0 : ℚ) = 0 then qHalf else 0) = qHalf
      rw [if_pos rfl]
  have hc : normalizedConfidence aiResult = 1 / 2 := by
    rw [normalizedConfidence, hjs, ← qHalf_eq_div]
    decide
  refine ⟨hc, by rw [hc], ?_⟩
  intro hthr
  have hnot : ¬ normalizedConfidence aiResult < config.confidenceThreshold := by
    rw [hc]
    exact not_lt.mpr hthr
  show (aiResult.requiresReview.getD false
      || decide (normalizedConfidence aiResult < config.confidenceThreshold)) =
    aiResult.requiresReview.getD false
  rw [decide_eq_false hnot, Bool.or_false]

/-- Witness for C10: confidence reported as exactly 0 against threshold
0.5 keeps the review gate closed. -/
theorem parseInferenceResult_zero_confidence_default_witness :
    (parseInferenceResult ⟨qHalf⟩ "2025-09-16"
      { confidence := some 0, requiresReview := some false }
      ⟨"hello", "text", none⟩).requiresReview =
      (some false : Option Bool).getD false :=
  (parseInferenceResult_zero_confidence_default ⟨qHalf⟩ "2025-09-16"
    { confidence := some 0, requiresReview := some false }
    ⟨"hello", "text", none⟩ (Or.inr rfl)).2.2 (le_of_eq qHalf_eq_div)

/-- Claim C1, counterexample: on an engine that is not yet initialized and
whose registry is unreadable, capture propagates the initialization
exception instead of returning a CaptureResult. -/
theorem capture_throws_on_lazy_initialization :
    capture
      { crossrefOk := false
        infOutcome := .error "unused"
        writeOk := fun _ => false
        now := "2025-09-16T12:00:00Z" }
      { initialized := false, trackers := [] }
      { text := "hello", inputType := "text" } =
      .error "Cannot initialize without crossref data" := rfl

/-- Claim C1 as amended: once the engine is initialized, or when its lazy
initialization succeeds, capture always terminates with a CaptureResult
and never propagates an exception, on every path (inference failure,
placement failure, review routing, emergency capture); the one throwing
path is lazy initialization on an unreadable registry. -/
theorem capture_returns_result (env : CaptureEnv) (st : EngineState)
    (input : CaptureInput)
    (h : st.initialized = true ∨ env.crossrefOk = true) :
    ∃ result, capture env st input = .ok result := by
  by_cases hi : st.initialized = true
  · exact ⟨captureRun env st input, by simp [capture, hi]⟩
  · rcases h with h | h
    · exact absurd h hi
    · exact ⟨captureRun env { st with initialized := true } input,
        by simp [capture, hi, h]⟩

/-- Witness for the amended C1 on an initialized engine whose inference
stage throws and whose only tracker refuses the write. -/
theorem capture_returns_result_witness :
    ∃ result,
      capture
        { crossrefOk := true
          infOutcome := .error "boom"
          writeOk := fun _ => false
          now := "2025-09-16T12:00:00Z" }
        { initialized := true, trackers := [("alpha", ⟨⟨"alpha"⟩⟩)] }
        { text := "hello", inputType := "text" } = .ok result :=
  capture_returns_result
    { crossrefOk := true
      infOutcome := .error "boom"
      writeOk := fun _ => false
      now := "2025-09-16T12:00:00Z" }
    { initialized := true, trackers := [("alpha", ⟨⟨"alpha"⟩⟩)] }
    { text := "hello", inputType := "text" } (Or.inl rfl)

/-- Claim C9, counterexample: a capture whose inference succeeds below the
review gate but whose single generated item fails placement returns
success = false with no error field at all, a success=false result that
does not come from Emergency Capture and carries no non-empty error. -/
theorem capture_failure_without_emergency :
    (capture
      { crossrefOk := true
        infOutcome := .ok
          { primaryTracker := "alpha"
            confidence := qHalf
            overallReasoning := "r"
            generatedItems :=
              [{ tracker := "alpha", itemType := .action, priority := .medium,
                 content := "- [ ] x", reasoning := "g" }]
            taskCompletions := []
            requiresReview := false }
        writeOk := fun _ => false
        now := "2025-09-16T12:00:00Z" }
      { initialized := true, trackers := [("alpha", ⟨⟨"alpha"⟩⟩)] }
      { text := "hello", inputType := "text" }).toOption.map
        (fun r => (r.success, r.error, r.requiresReview)) =
      some (false, none, false) := rfl

/-- Claim C9 as amended for the emergency tier: when the inference stage
throws and every loaded tracker refuses the emergency append, capture
returns success = false with the non-empty complete-capture-failure error
and an unwritten entry embedding the original input text verbatim (this is
no longer the only success=false path: a fully failed placement pass and a
failed review append also return success=false, as the counterexample
shows). -/
theorem emergency_total_failure (env : CaptureEnv) (st : EngineState)
    (input : CaptureInput) (e : String)
    (hinit : st.initialized = true)
    (hinf : env.infOutcome = .error e)
    (hfail : ∀ tracker ∈ getTrackersByContext st,
      appendToTracker env st tracker.frontmatter.tag (emergencyEntry env input e) = false) :
    ∃ result, capture env st input = .ok result ∧
      result.success = false ∧
      result.error = some ("Complete capture failure: " ++ e) ∧
      ("Complete capture failure: " ++ e) ≠ "" ∧
      result.itemResults =
        [{ success := false
           tracker := "none"
           itemType := .action
           formattedEntry := emergencyEntry env input e
           error := some ("Complete capture failure: " ++ e) }] ∧
      ∃ pre post, emergencyEntry env input e = pre ++ input.text ++ post := by
  have hfind : (getTrackersByContext st).find?
      (fun tracker =>
        appendToTracker env st tracker.frontmatter.tag (emergencyEntry env input e)) =
      none := by
    rw [List.find?_eq_none]
    intro tr htr
    simp [hfail tr htr]
  have hemer : emergencyCapture env st input e =
      { success := false
        primaryTracker := "none"
        confidence := 0
        itemResults :=
          [{ success := false
             tracker := "none"
             itemType := .action
             formattedEntry := emergencyEntry env input e
             error := some ("Complete capture failure: " ++ e) }]
        completedTasks := []
        requiresReview := true
        error := some ("Complete capture failure: " ++ e) } := by
    rw [emergencyCapture]
    rw [hfind]
  have hcap : capture env st input = .ok (emergencyCapture env st input e) := by
    simp [capture, hinit, captureRun, hinf]
  refine ⟨emergencyCapture env st input e, hcap, ?_, ?_, ?_, ?_, ?_⟩
  · rw [hemer]
  · rw [hemer]
  · exact append_ne_empty_left "Complete capture failure: " e (by decide)
  · rw [hemer]
  · exact ⟨"- [ ] EMERGENCY CAPTURE [" ++ env.now ++ "]: ",
      " (Error: " ++ e ++ ")", rfl⟩

/-- Witness for the amended C9 on a one-tracker engine that refuses every
write while inference throws. -/
theorem emergency_total_failure_witness :
    ∃ result,
      capture
        { crossrefOk := true
          infOutcome := .error "boom"
          writeOk := fun _ => false
          now := "T" }
        { initialized := true, trackers := [("alpha", ⟨⟨"alpha"⟩⟩)] }
        { text := "save me", inputType := "text" } = .ok result ∧
      result.success = false ∧
      result.error = some ("Complete capture failure: " ++ "boom") ∧
      ("Complete capture failure: " ++ "boom") ≠ "" ∧
      result.itemResults =
        [{ success := false
           tracker := "none"
           itemType := .action
           formattedEntry :=
             emergencyEntry
               { crossrefOk := true
                 infOutcome := .error "boom"
                 writeOk := fun _ => false
                 now := "T" }
               { text := "save me", inputType := "text" } "boom"
           error := some ("Complete capture failure: " ++ "boom") }] ∧
      ∃ pre post,
        emergencyEntry
          { crossrefOk := true
            infOutcome := .error "boom"
            writeOk := fun _ => false
            now := "T" }
          { text := "save me", inputType := "text" } "boom" =
          pre ++ "save me" ++ post :=
  emergency_total_failure
    { crossrefOk := true
      infOutcome := .error "boom"
      writeOk := fun _ => false
      now := "T" }
    { initialized := true, trackers := [("alpha", ⟨⟨"alpha"⟩⟩)] }
    { text := "save me", inputType := "text" } "boom" rfl rfl (by decide)

/-- Environment for the C8 scenario: the append against the file behind
the review tag fails, the one behind the inbox tag would succeed. -/
def c8env : CaptureEnv :=
  { crossrefOk := true
    infOutcome := .error "unused"
    writeOk := fun tag => tag == "inbox"
    now := "2025-09-16T12:00:00Z" }

/-- State for the C8 scenario: both a review and an inbox tracker are
loaded. -/
def c8st : EngineState :=
  { initialized := true
    trackers := [("review", ⟨⟨"review"⟩⟩), ("inbox", ⟨⟨"inbox"⟩⟩)] }

/-- Input for the C8 scenario. -/
def c8input : CaptureInput := { text := "call bob", inputType := "text" }

/-- Inference result for the C8 scenario. -/
def c8inf : InferenceResult :=
  { primaryTracker := "alpha"
    confidence := qHalf
    overallReasoning := "r"
    generatedItems := []
    taskCompletions := []
    requiresReview := true }

/-- Claim C8, counterexample: with the review tracker loaded but
unwritable and the inbox tracker loaded and writable, review routing
returns failure without ever attempting the inbox append, and the rendered
entry carries the literal text undefined in place of the best-guess
tracker (the field read by the source does not exist on the multi-item
inference result). -/
theorem routeToReview_no_fallthrough :
    (routeToReview c8env c8st c8input (some c8inf)).success = false ∧
    appendToTracker c8env c8st "inbox" (formatReviewEntry c8input (some c8inf)) = true ∧
    formatReviewEntry c8input (some c8inf) =
      "- [ ] #review REVIEW NEEDED: call bob (AI suggested: undefined) (confidence: 1/2)" := by
  refine ⟨?_, ?_, ?_⟩ <;> decide

/-- Claim C8 as amended: review routing renders one entry embedding the
original text (with the literal placeholder undefined where the best-guess
tracker was meant to appear) and makes a single append attempt against the
first loaded tracker among review, inbox and churn-system, in that order;
that single attempt's outcome is final, with no fall-through to the later
trackers when the append itself fails, and false when none of the three is
loaded. -/
theorem routeToReview_single_attempt (env : CaptureEnv) (st : EngineState)
    (input : CaptureInput) (inference : InferenceResult) :
    (∃ pre post,
      formatReviewEntry input (some inference) = pre ++ input.text ++ post) ∧
    (routeToReview env st input (some inference)).requiresReview = true ∧
    (routeToReview env st input (some inference)).success =
      appendToReviewTracker env st (formatReviewEntry input (some inference)) ∧
    (∀ tr, getTracker st "review" = some tr →
      appendToReviewTracker env st (formatReviewEntry input (some inference)) =
        appendToTracker env st tr.frontmatter.tag
          (formatReviewEntry input (some inference))) ∧
    (getTracker st "review" = none →
      ∀ tr, getTracker st "inbox" = some tr →
        appendToReviewTracker env st (formatReviewEntry input (some inference)) =
          appendToTracker env st tr.frontmatter.tag
            (formatReviewEntry input (some inference))) ∧
    (getTracker st "review" = none → getTracker st "inbox" = none →
      ∀ tr, getTracker st "churn-system" = some tr →
        appendToReviewTracker env st (formatReviewEntry input (some inference)) =
          appendToTracker env st tr.frontmatter.tag
            (formatReviewEntry input (some inference))) ∧
    (getTracker st "review" = none → getTracker st "inbox" = none →
      getTracker st "churn-system" = none →
      appendToReviewTracker env st (formatReviewEntry input (some inference)) = false) := by
  refine ⟨?_, rfl, rfl, ?_, ?_, ?_, ?_⟩
  · refine ⟨("- [ ] #" ++ "review" ++ " ") ++ "REVIEW NEEDED: ",
      " (AI suggested: undefined)" ++
        (" (confidence: " ++
          ratStr (jsOrRat ((some inference).map (fun i => i.confidence)) qTenth) ++ ")"), ?_⟩
    simp only [formatReviewEntry, formatEntry, String.append_assoc]
  · intro tr htr
    simp [appendToReviewTracker, htr]
  · intro h1 tr htr
    simp [appendToReviewTracker, h1, htr]
  · intro h1 h2 tr htr
    simp [appendToReviewTracker, h1, h2, htr]
  · intro h1 h2 h3
    simp [appendToReviewTracker, h1, h2, h3]

/-- Witness for the amended C8 at the concrete scenario state. -/
theorem routeToReview_single_attempt_witness :
    (routeToReview c8env c8st c8input (some c8inf)).requiresReview = true :=
  (routeToReview_single_attempt c8env c8st c8input c8inf).2.1

/-- Tracker document for the C6 failing input. -/
def c6doc : List String := ["# Tracker", "", "## Activity Log", ""]

/-- Chronologically first activity entry of the C6 failing input. -/
def c6e1 : String := "- [2025-01-01 09:00] first"

/-- Chronologically second activity entry of the C6 failing input. -/
def c6e2 : String := "- [2025-01-02 09:00] second"

/-- Claim C6, evaluation at the failing input: two activity entries
inserted across two captures in chronological order end up newest first,
because every insertion is spliced at the fixed offset two below the
Activity Log header; the resulting log is not in oldest-first order. -/
theorem appendActivity_not_chronological :
    activityEntries
        (appendActivityToTrackerLines
          (appendActivityToTrackerLines c6doc c6e1) c6e2) = [c6e2, c6e1] ∧
    oldestFirst
        (activityEntries
          (appendActivityToTrackerLines
            (appendActivityToTrackerLines c6doc c6e1) c6e2)) = false := by
  refine ⟨?_, ?_⟩ <;> decide

/-- Tracker document without an Action Items section for the C7 failing
input. -/
def c7doc : List String := ["# Tracker", "", "## Notes", "", "- a note"]

/-- Entry appended in the C7 failing input. -/
def c7entry : String := "- [ ] #task new item"

/-- Claim C7, evaluation at the failing input: appending to a tracker
whose Action Items section is absent pushes a blank line and the bare
entry at the end of the document; no section header is created anywhere,
let alone in canonical position with one blank line before and after. -/
theorem appendToTracker_creates_no_section :
    appendToTrackerLines c7doc c7entry = c7doc ++ ["", c7entry] ∧
    (appendToTrackerLines c7doc c7entry).all
      (fun line => !(jsTrim line == "## Action Items")) = true := by
  refine ⟨?_, ?_⟩ <;> decide

end Churn
